import Mathlib

/-!
Shallow embedding of the NEC PC-8401A / PC-8500 driver core
(`src/mame/nec/pc8401a.cpp`): the memory-mapping register decode and bank
resolution (`bankswitch`, `mmr_w`, `mmr_r`), the keyboard
scan/latch/interrupt state machine (`scan_keyboard`, ports 0x70/0x71), the
I/O-ROM cartridge address counter (`io_rom_addr_w`, `io_rom_data_r`) and
the machine start/reset hooks.

Machine integers are modelled as `Nat` with explicit masking exactly where
the C++ code masks; the `int m_key_strobe` member, which the driver only
ever stores 0 or 1 into and tests as a boolean, is modelled as `Bool`.
Observer counters (`resolve_count`, `diag_count`, `irq_asserts`) count
invocations of `bankswitch`, `logerror` in the invalid-MMR branch, and
`set_input_line_and_vector(..., ASSERT_LINE, ...)` respectively, so that
"routine was (not) invoked" claims are statable.
-/

namespace PC8401A

/-- Handler installed for an address window by the memory system calls the
driver makes: a read-only bank (`install_read_bank` plus `unmap_write`), a
read-write bank (`install_readwrite_bank`), or fully unmapped
(`unmap_readwrite`). -/
inductive WinHandler
  | readBank
  | rwBank
  | unmapped
deriving DecidableEq, Repr

/-- The driver state: MMR and the installed window mappings (handler plus
current bank entry per switchable window), the fixed machine configuration
(`ram_size` in bytes from `m_ram->size()`, `cart_present` for
`m_cart_rom != nullptr`), the keyboard controller members, the CPU IRQ0
line, the RTC chip-select line, and the I/O-ROM address counter. -/
structure SysState where
  mmr : Nat
  low_h : WinHandler
  bank1_entry : Nat
  mid_h : WinHandler
  bank3_entry : Nat
  bank4_entry : Nat
  e000_unmapped : Bool
  ram_size : Nat
  cart_present : Bool
  key_strobe : Bool
  key_latch : Nat
  key_irq_enable : Bool
  irq_line : Bool
  irq_asserts : Nat
  irq_vector : Nat
  rtc_cs : Bool
  io_addr : Nat
  resolve_count : Nat
  diag_count : Nat
deriving DecidableEq, Repr

/-- The `switch (ram0000)` statement of `pc8401a_state::bankswitch`, with
`rombank = data & 3` and `ram0000 = (data >> 2) & 3`: selector 0 installs
internal ROM bank `rombank` read-only (or cartridge ROM entry 6, or
unmaps when no cartridge); selectors 1 and 2 install main-RAM entries 4
and 5 read-write; the invalid selector 3 only emits a `logerror`
diagnostic, leaving the previous low-window mapping in place. -/
def lowSwitch (data : Nat) (s : SysState) : SysState :=
  let rombank := data &&& 0x03
  let ram0000 := (data >>> 2) &&& 0x03
  if ram0000 = 0 then
    if rombank < 3 then
      { s with low_h := WinHandler.readBank, bank1_entry := rombank }
    else if s.cart_present then
      { s with low_h := WinHandler.readBank, bank1_entry := 6 }
    else
      { s with low_h := WinHandler.unmapped }
  else if ram0000 = 1 then
    { s with low_h := WinHandler.rwBank, bank1_entry := 4 }
  else if ram0000 = 2 then
    { s with low_h := WinHandler.rwBank, bank1_entry := 5 }
  else
    { s with diag_count := s.diag_count + 1 }

/-- The `switch (ram8000)` statement of `pc8401a_state::bankswitch`, with
`ram8000 = (data >> 4) & 3`: selectors 0-2 install RAM cell 0-2
read-write; selector 3 installs cell 3 when `m_ram->size() > 64`, else
unmaps the mid window. -/
def midSwitch (data : Nat) (s : SysState) : SysState :=
  let ram8000 := (data >>> 4) &&& 0x03
  if ram8000 = 0 then
    { s with mid_h := WinHandler.rwBank, bank3_entry := 0 }
  else if ram8000 = 1 then
    { s with mid_h := WinHandler.rwBank, bank3_entry := 1 }
  else if ram8000 = 2 then
    { s with mid_h := WinHandler.rwBank, bank3_entry := 2 }
  else if 64 < s.ram_size then
    { s with mid_h := WinHandler.rwBank, bank3_entry := 3 }
  else
    { s with mid_h := WinHandler.unmapped }

/-- The `BIT(data, 6)` branch of `pc8401a_state::bankswitch`: bit 6 set
maps CRT video RAM (bank4 entry 1) into `[0xc000,0xdfff]` and unmaps
`[0xe000,0xe7ff]`; bit 6 clear maps main RAM (entry 0) into the whole of
`[0xc000,0xe7ff]`. -/
def highSwitch (data : Nat) (s : SysState) : SysState :=
  if data.testBit 6 then
    { s with bank4_entry := 1, e000_unmapped := true }
  else
    { s with bank4_entry := 0, e000_unmapped := false }

/-- `pc8401a_state::bankswitch(uint8_t data)`: the three window switches
executed in sequence (the counter records the invocation for the
re-resolution claims). -/
def bankswitch (data : Nat) (s : SysState) : SysState :=
  highSwitch data (midSwitch data (lowSwitch data
    { s with resolve_count := s.resolve_count + 1 }))

/-- `pc8401a_state::mmr_w`: calls `bankswitch(data)` only when
`data != m_mmr`, then stores `m_mmr = data`. -/
def mmr_w (data : Nat) (s : SysState) : SysState :=
  let s1 := if data ≠ s.mmr then bankswitch data s else s
  { s1 with mmr := data }

/-- `pc8401a_state::mmr_r`: returns `m_mmr`. -/
def mmr_r (s : SysState) : Nat :=
  s.mmr

/-- One iteration of the row loop in `scan_keyboard`; the accumulator is
the pair (local `strobe`, `m_key_latch`). -/
def scanStep (rows : Nat → Nat) (p : Bool × Nat) (row : Nat) : Bool × Nat :=
  if rows row ≠ 0xff then (true, rows row) else p

/-- `pc8401a_state::scan_keyboard`: returns immediately unless
`m_key_irq_enable`; scans rows 0..9 latching each non-0xff row value;
asserts IRQ0 with vector 0xef only on the transition from
`m_key_strobe == 0` to `strobe == 1`; finally sets `m_key_strobe` if
`strobe`.  `rows` gives the value `m_io_y[row]->read()` returns. -/
def scan_keyboard (rows : Nat → Nat) (s : SysState) : SysState :=
  if !s.key_irq_enable then s
  else
    let p := (List.range 10).foldl (scanStep rows) (false, s.key_latch)
    let s1 := { s with key_latch := p.2 }
    let s2 :=
      if !s1.key_strobe && p.1 then
        { s1 with irq_line := true, irq_asserts := s1.irq_asserts + 1,
                  irq_vector := 0xef }
      else s1
    if p.1 then { s2 with key_strobe := true } else s2

/-- A sequence of keyboard timer ticks (`keyboard_tick` calls
`scan_keyboard`), one row-input configuration per tick. -/
def ticks (s : SysState) (l : List (Nat → Nat)) : SysState :=
  l.foldl (fun st rows => scan_keyboard rows st) s

/-- `pc8401a_state::port70_r`: `0x10 | (m_key_strobe & 1)`. -/
def port70_r (s : SysState) : Nat :=
  0x10 ||| (if s.key_strobe then 1 else 0)

/-- `pc8401a_state::port71_r`: returns `m_key_latch`. -/
def port71_r (s : SysState) : Nat :=
  s.key_latch

/-- `pc8401a_state::port70_w`: clears `m_key_strobe`. -/
def port70_w (_data : Nat) (s : SysState) : SysState :=
  { s with key_strobe := false }

/-- `pc8401a_state::port71_w`: clears the CPU IRQ0 line; sets
`m_key_irq_enable` when `data == 0x18 && m_key_latch == 0x10`; then stores
`m_key_latch = data`. -/
def port71_w (data : Nat) (s : SysState) : SysState :=
  let s1 := { s with irq_line := false }
  let s2 :=
    if data = 0x18 ∧ s1.key_latch = 0x10 then
      { s1 with key_irq_enable := true }
    else s1
  { s2 with key_latch := data }

/-- `pc8401a_state::io_rom_addr_w(offset, data)`: offset 0 sets
`m_io_addr = ((data & 3) << 16) | (m_io_addr & 0xffff)`, offset 1 sets
`(m_io_addr & 0x300ff) | (data << 8)`, offset 2 sets
`(m_io_addr & 0x3ff00) | data`, offset 3 does nothing. -/
def io_rom_addr_w (offset data : Nat) (s : SysState) : SysState :=
  if offset = 0 then
    { s with io_addr := ((data &&& 0x03) <<< 16) ||| (s.io_addr &&& 0xffff) }
  else if offset = 1 then
    { s with io_addr := (s.io_addr &&& 0x300ff) ||| (data <<< 8) }
  else if offset = 2 then
    { s with io_addr := (s.io_addr &&& 0x3ff00) ||| data }
  else s

/-- `pc8401a_state::io_rom_data_r`: returns
`m_io_cart->read_rom(m_io_addr)`; `img` is the inserted cartridge image as
a byte function of the linear offset. -/
def io_rom_data_r (img : Nat → Nat) (s : SysState) : Nat :=
  img s.io_addr

/-- Construction-time member defaults of `pc8401a_state`
(`m_mmr = 0`, `m_key_strobe = 0`, `m_key_latch = 0`,
`m_key_irq_enable = false`, `m_io_addr = 0`), together with the `bankrw`
handlers the address map `pc8401a_mem` installs for every window before
`machine_start` runs, for a machine configured with the given RAM size in
bytes and option-cartridge presence. -/
def initState (ramSize : Nat) (cartPresent : Bool) : SysState :=
  { mmr := 0, low_h := WinHandler.rwBank, bank1_entry := 0,
    mid_h := WinHandler.rwBank, bank3_entry := 0,
    bank4_entry := 0, e000_unmapped := false,
    ram_size := ramSize, cart_present := cartPresent,
    key_strobe := false, key_latch := 0, key_irq_enable := false,
    irq_line := false, irq_asserts := 0, irq_vector := 0,
    rtc_cs := false, io_addr := 0, resolve_count := 0, diag_count := 0 }

/-- `pc8401a_state::machine_start`: asserts RTC chip select (`cs_w(1)`),
configures the bank entries and sets banks 1, 3, 4 to entry 0, then calls
`bankswitch(0)`.  `m_mmr` itself is not written. -/
def machine_start (s : SysState) : SysState :=
  bankswitch 0
    { s with rtc_cs := true,
             bank1_entry := 0, bank3_entry := 0, bank4_entry := 0 }

/-- `pc8401a_state::machine_reset`: sets `m_key_irq_enable = false` and
nothing else. -/
def machine_reset (s : SysState) : SysState :=
  { s with key_irq_enable := false }

/-- Data visible through `bank1` entry `e` at low-window offset `a`, as
configured in `machine_start`: entries 0-3 are 32KB pages of the internal
ROM region, entries 4-5 the two halves of main RAM, entry 6 the option
ROM cartridge. -/
def bank1_data (rom ram cart : Nat → Nat) (e a : Nat) : Nat :=
  if e < 4 then rom (e * 0x8000 + a)
  else if e = 4 then ram a
  else if e = 5 then ram (0x8000 + a)
  else cart a

/-- CPU memory read routed through the currently installed window
mappings; a range with no handler yields the open-bus value 0xff
(`map.unmap_value_high()`).  `rom`, `ram`, `crt`, `cart` are the backing
stores (internal ROM, main RAM, CRT video RAM, option cartridge). -/
def mem_read (rom ram crt cart : Nat → Nat) (s : SysState) (a : Nat) : Nat :=
  if a < 0x8000 then
    match s.low_h with
    | WinHandler.unmapped => 0xff
    | _ => bank1_data rom ram cart s.bank1_entry a
  else if a < 0xc000 then
    match s.mid_h with
    | WinHandler.unmapped => 0xff
    | _ => ram (s.bank3_entry * 0x4000 + (a - 0x8000))
  else if a < 0xe000 then
    (if s.bank4_entry = 1 then crt (a - 0xc000) else ram a)
  else if a < 0xe800 then
    (if s.e000_unmapped then 0xff else ram a)
  else ram a

/-- Cold-boot state of the base configuration: 64K RAM
(`set_default_size("64K")`, 65536 bytes), no option cartridge;
`machine_start` then `machine_reset`. -/
def boot64 : SysState :=
  machine_reset (machine_start (initState 65536 false))

/-! ### Helper lemmas -/

theorem lowSwitch_resolve (d : Nat) (s : SysState) :
    (lowSwitch d s).resolve_count = s.resolve_count := by
  simp only [lowSwitch]
  split_ifs <;> rfl

theorem midSwitch_resolve (d : Nat) (s : SysState) :
    (midSwitch d s).resolve_count = s.resolve_count := by
  simp only [midSwitch]
  split_ifs <;> rfl

theorem highSwitch_resolve (d : Nat) (s : SysState) :
    (highSwitch d s).resolve_count = s.resolve_count := by
  simp only [highSwitch]
  split_ifs <;> rfl

theorem midSwitch_low_h (d : Nat) (s : SysState) :
    (midSwitch d s).low_h = s.low_h := by
  simp only [midSwitch]
  split_ifs <;> rfl

theorem midSwitch_bank1 (d : Nat) (s : SysState) :
    (midSwitch d s).bank1_entry = s.bank1_entry := by
  simp only [midSwitch]
  split_ifs <;> rfl

theorem midSwitch_diag (d : Nat) (s : SysState) :
    (midSwitch d s).diag_count = s.diag_count := by
  simp only [midSwitch]
  split_ifs <;> rfl

theorem midSwitch_ram_size (d : Nat) (s : SysState) :
    (midSwitch d s).ram_size = s.ram_size := by
  simp only [midSwitch]
  split_ifs <;> rfl

theorem highSwitch_low_h (d : Nat) (s : SysState) :
    (highSwitch d s).low_h = s.low_h := by
  simp only [highSwitch]
  split_ifs <;> rfl

theorem highSwitch_bank1 (d : Nat) (s : SysState) :
    (highSwitch d s).bank1_entry = s.bank1_entry := by
  simp only [highSwitch]
  split_ifs <;> rfl

theorem highSwitch_diag (d : Nat) (s : SysState) :
    (highSwitch d s).diag_count = s.diag_count := by
  simp only [highSwitch]
  split_ifs <;> rfl

theorem highSwitch_mid_h (d : Nat) (s : SysState) :
    (highSwitch d s).mid_h = s.mid_h := by
  simp only [highSwitch]
  split_ifs <;> rfl

theorem highSwitch_bank3 (d : Nat) (s : SysState) :
    (highSwitch d s).bank3_entry = s.bank3_entry := by
  simp only [highSwitch]
  split_ifs <;> rfl

theorem lowSwitch_resolve_mid (d : Nat) (s : SysState) :
    (lowSwitch d s).mid_h = s.mid_h ∧ (lowSwitch d s).bank3_entry = s.bank3_entry
      ∧ (lowSwitch d s).ram_size = s.ram_size := by
  simp only [lowSwitch]
  split_ifs <;> exact ⟨rfl, rfl, rfl⟩

theorem bankswitch_resolve_count (d : Nat) (s : SysState) :
    (bankswitch d s).resolve_count = s.resolve_count + 1 := by
  simp only [bankswitch]
  rw [highSwitch_resolve, midSwitch_resolve, lowSwitch_resolve]

theorem scanFold_idle (rows : Nat → Nat) (p : Bool × Nat) (n : Nat)
    (h : ∀ j, j < n → rows j = 0xff) :
    (List.range n).foldl (scanStep rows) p = p := by
  induction n with
  | zero => rfl
  | succ n ih =>
    rw [List.range_succ, List.foldl_append]
    simp only [List.foldl_cons, List.foldl_nil]
    rw [ih (fun j hj => h j (Nat.lt_succ_of_lt hj))]
    simp [scanStep, h n (Nat.lt_succ_self n)]

theorem scanFold_fst (rows : Nat → Nat) (p : Bool × Nat) (n i : Nat)
    (hi : i < n) (hne : rows i ≠ 0xff) :
    ((List.range n).foldl (scanStep rows) p).1 = true := by
  induction n with
  | zero => omega
  | succ n ih =>
    rw [List.range_succ, List.foldl_append]
    simp only [List.foldl_cons, List.foldl_nil]
    by_cases hlast : rows n = 0xff
    · have hin : i < n := by
        rcases Nat.lt_succ_iff_lt_or_eq.mp hi with h' | h'
        · exact h'
        · exact absurd (h' ▸ hne) (by simp [hlast])
      simp [scanStep, hlast]
      exact ih hin
    · simp [scanStep, hlast]

theorem scanFold_snd (rows : Nat → Nat) (p : Bool × Nat) (n i : Nat)
    (hi : i < n) (hne : rows i ≠ 0xff)
    (hidle : ∀ j, i < j → j < n → rows j = 0xff) :
    ((List.range n).foldl (scanStep rows) p).2 = rows i := by
  induction n with
  | zero => omega
  | succ n ih =>
    rw [List.range_succ, List.foldl_append]
    simp only [List.foldl_cons, List.foldl_nil]
    by_cases h' : i = n
    · subst h'
      simp [scanStep, hne]
    · have hin : i < n := by omega
      have hrn : rows n = 0xff := hidle n (by omega) (by omega)
      simp [scanStep, hrn]
      exact ih hin (fun j h1 h2 => hidle j h1 (by omega))

theorem testBit_false_ge {x : Nat} (n : Nat) {k : Nat} (hx : x < 2 ^ n)
    (hk : n ≤ k) : x.testBit k = false :=
  Nat.testBit_lt_two_pow
    (lt_of_lt_of_le hx (Nat.pow_le_pow_right (by norm_num) hk))

/-! ### C1: MMR write idempotence and re-resolution -/

/-- C1: writing the current MMR value back leaves the whole state (bank
mappings included) unchanged and does not invoke `bankswitch`; writing a
different value invokes `bankswitch` exactly once; in both cases a
subsequent `mmr_r` returns the written value. -/
theorem C1_mmr_write (s : SysState) (v : Nat) :
    mmr_w s.mmr s = s
    ∧ (v ≠ s.mmr → (mmr_w v s).resolve_count = s.resolve_count + 1)
    ∧ mmr_r (mmr_w v s) = v := by
  refine ⟨?_, ?_, rfl⟩
  · simp [mmr_w]
  · intro h
    simp [mmr_w, if_pos h, bankswitch_resolve_count]

/-- Witness for C1 at the cold-boot state and value 4. -/
theorem C1_mmr_write_witness :
    mmr_w boot64.mmr boot64 = boot64
    ∧ ((4 : Nat) ≠ boot64.mmr →
        (mmr_w 4 boot64).resolve_count = boot64.resolve_count + 1)
    ∧ mmr_r (mmr_w 4 boot64) = 4 :=
  C1_mmr_write boot64 4

/-! ### C6: disabled keyboard controller never reacts -/

/-- C6: while `m_key_irq_enable` is false, any sequence of keyboard timer
ticks, with arbitrary row inputs at each tick, leaves the state entirely
unchanged: the strobe is never set, the latch is never updated, and the
interrupt line is never asserted. -/
theorem C6_disabled_ticks (s : SysState) (h : s.key_irq_enable = false)
    (l : List (Nat → Nat)) :
    ticks s l = s := by
  induction l with
  | nil => rfl
  | cons rows rest ih =>
    have hs : scan_keyboard rows s = s := by
      simp [scan_keyboard, h]
    simp only [ticks, List.foldl_cons] at ih ⊢
    rw [hs]
    exact ih

/-- Witness for C6 at the cold-boot state with two all-pressed ticks. -/
theorem C6_disabled_ticks_witness :
    ticks boot64 [fun _ => 0x00, fun _ => 0x7f] = boot64 :=
  C6_disabled_ticks boot64 (by decide) [fun _ => 0x00, fun _ => 0x7f]

/-! ### C8: keyboard status port format -/

/-- C8: every read of port 0x70 returns a byte with bit 4 set, bit 0 equal
to the strobe flag, and all other bits clear; the value is 0x10 or 0x11. -/
theorem C8_port70_status (s : SysState) (k : Nat) (h0 : k ≠ 0) (h4 : k ≠ 4) :
    (port70_r s).testBit 4 = true
    ∧ (port70_r s).testBit 0 = s.key_strobe
    ∧ (port70_r s).testBit k = false
    ∧ (port70_r s = 0x10 ∨ port70_r s = 0x11) := by
  cases hs : s.key_strobe
  case false =>
    have hv : port70_r s = 0x10 := by
      unfold port70_r
      rw [hs]
      decide
    refine ⟨by rw [hv]; decide, by rw [hv]; decide, ?_, Or.inl hv⟩
    by_cases hk : k < 5
    · interval_cases k
      · exact absurd rfl h0
      · rw [hv]; decide
      · rw [hv]; decide
      · rw [hv]; decide
      · exact absurd rfl h4
    · exact testBit_false_ge 5 (by rw [hv]; decide) (by omega)
  case true =>
    have hv : port70_r s = 0x11 := by
      unfold port70_r
      rw [hs]
      decide
    refine ⟨by rw [hv]; decide, by rw [hv]; decide, ?_, Or.inr hv⟩
    by_cases hk : k < 5
    · interval_cases k
      · exact absurd rfl h0
      · rw [hv]; decide
      · rw [hv]; decide
      · rw [hv]; decide
      · exact absurd rfl h4
    · exact testBit_false_ge 5 (by rw [hv]; decide) (by omega)

/-- Witness for C8 at the cold-boot state and bit 7. -/
theorem C8_port70_status_witness :
    (port70_r boot64).testBit 4 = true
    ∧ (port70_r boot64).testBit 0 = boot64.key_strobe
    ∧ (port70_r boot64).testBit 7 = false
    ∧ (port70_r boot64 = 0x10 ∨ port70_r boot64 = 0x11) :=
  C8_port70_status boot64 7 (by decide) (by decide)

/-! ### C9: keyboard data port write overwrites the latch -/

/-- C9: for every byte `b`, writing `b` to port 0x71 unconditionally
overwrites the latched row data with `b` — so an immediately following
read of port 0x71 returns `b` — and clears the CPU interrupt line. -/
theorem C9_port71_write (s : SysState) (b : Nat) (hb : b < 256) :
    (port71_w b s).key_latch = b
    ∧ port71_r (port71_w b s) = b
    ∧ (port71_w b s).irq_line = false := by
  refine ⟨rfl, rfl, ?_⟩
  simp only [port71_w]
  split <;> rfl

/-- Witness for C9 at the cold-boot state and byte 0x42. -/
theorem C9_port71_write_witness :
    (port71_w 0x42 boot64).key_latch = 0x42
    ∧ port71_r (port71_w 0x42 boot64) = 0x42
    ∧ (port71_w 0x42 boot64).irq_line = false :=
  C9_port71_write boot64 0x42 (by decide)

/-! ### C2: invalid low-window selector -/

/-- C2 counterexample: at the cold-boot state (low window mapped to
internal ROM bank 0), an MMR write selecting the invalid low-window
source 3 (value 0x0C) does NOT leave the low window unmapped: the
previous read-only ROM mapping stays installed, and a low-window read
still returns the ROM byte (0x41 here) rather than the open-bus value
0xff. -/
theorem C2_invalid_counterexample :
    (mmr_w 0x0c boot64).low_h = WinHandler.readBank
    ∧ (mmr_w 0x0c boot64).low_h ≠ WinHandler.unmapped
    ∧ mem_read (fun _ => 0x41) (fun _ => 0) (fun _ => 0) (fun _ => 0)
        (mmr_w 0x0c boot64) 0x100 = 0x41 := by
  refine ⟨by decide, by decide, by decide⟩

/-- C2 (amended): a bank resolution whose low_window_source field (bits
3:2) equals 3 emits a diagnostic and is never fatal, but leaves the low
window's previously installed mapping unchanged (handler and bank entry
keep their prior values, so low-window reads are unaffected by the
resolution), rather than unmapping the window. -/
theorem C2_invalid_low_window (s : SysState) (d : Nat)
    (h : (d >>> 2) &&& 0x03 = 3) :
    (bankswitch d s).low_h = s.low_h
    ∧ (bankswitch d s).bank1_entry = s.bank1_entry
    ∧ (bankswitch d s).diag_count = s.diag_count + 1
    ∧ ∀ (rom ram crt cart : Nat → Nat) (a : Nat), a < 0x8000 →
        mem_read rom ram crt cart (bankswitch d s) a
          = mem_read rom ram crt cart s a := by
  have hlow : lowSwitch d { s with resolve_count := s.resolve_count + 1 }
      = { s with resolve_count := s.resolve_count + 1,
                 diag_count := s.diag_count + 1 } := by
    simp only [lowSwitch, h]
    norm_num
  have h1 : (bankswitch d s).low_h = s.low_h := by
    simp only [bankswitch, highSwitch_low_h, midSwitch_low_h, hlow]
  have h2 : (bankswitch d s).bank1_entry = s.bank1_entry := by
    simp only [bankswitch, highSwitch_bank1, midSwitch_bank1, hlow]
  have h3 : (bankswitch d s).diag_count = s.diag_count + 1 := by
    simp only [bankswitch, highSwitch_diag, midSwitch_diag, hlow]
  refine ⟨h1, h2, h3, ?_⟩
  intro rom ram crt cart a ha
  simp only [mem_read, if_pos ha, h1, h2]

/-- Witness for C2 (amended) at the cold-boot state and MMR value 0x0C. -/
theorem C2_invalid_low_window_witness :
    (bankswitch 0x0c boot64).low_h = boot64.low_h
    ∧ (bankswitch 0x0c boot64).bank1_entry = boot64.bank1_entry
    ∧ (bankswitch 0x0c boot64).diag_count = boot64.diag_count + 1
    ∧ ∀ (rom ram crt cart : Nat → Nat) (a : Nat), a < 0x8000 →
        mem_read rom ram crt cart (bankswitch 0x0c boot64) a
          = mem_read rom ram crt cart boot64 a :=
  C2_invalid_low_window boot64 0x0c (by decide)

/-! ### C3: mid-window RAM-cartridge size check -/

/-- C3 (code bug): in the base configuration the RAM device is 64K
(65536 bytes), which does not exceed the base 64KB, so by the claim a
mid_window_source value of 3 should leave the mid window unmapped.  The
code instead compares `m_ram->size()` — a byte count — against the bare
number 64, so 65536 > 64 holds and RAM cell 3 is installed read-write;
the `unmap_readwrite` branch is unreachable in every supported
configuration (64K and 96K). -/
theorem C3_mid_ram_cartridge_bug :
    boot64.ram_size = 65536
    ∧ ¬ (65536 : Nat) > 64 * 1024
    ∧ (bankswitch 0x30 boot64).mid_h = WinHandler.rwBank
    ∧ (bankswitch 0x30 boot64).bank3_entry = 3
    ∧ (bankswitch 0x30 boot64).mid_h ≠ WinHandler.unmapped := by
  refine ⟨rfl, by decide, by decide, by decide, by decide⟩

/-! ### C4: machine reset -/

/-- C4 counterexample: from a state with the strobe set and a latched row
byte, `machine_reset` clears neither of them and performs no bank
re-resolution — contradicting the claim that reset clears the keyboard
state to {disabled, idle} and forces a re-resolution with MMR value 0. -/
theorem C4_reset_counterexample :
    (machine_reset { boot64 with key_strobe := true, key_latch := 0x42 }).key_strobe = true
    ∧ (machine_reset { boot64 with key_strobe := true, key_latch := 0x42 }).key_latch = 0x42
    ∧ (machine_reset { boot64 with key_strobe := true, key_latch := 0x42 }).resolve_count
        = ({ boot64 with key_strobe := true, key_latch := 0x42 } : SysState).resolve_count :=
  ⟨rfl, rfl, rfl⟩

/-- C4 (amended): `machine_reset` only clears `m_key_irq_enable`, leaving
strobe, latch, MMR, RTC chip-select and the bank mappings untouched and
performing no re-resolution.  The full {disabled, idle} keyboard state,
the asserted RTC chip-select, and the `bankswitch(0)` resolution hold
after the cold-boot sequence `machine_start` then `machine_reset`, which
leaves the stored MMR value unchanged. -/
theorem C4_reset_amended (s : SysState) (ramSize : Nat) (cartPresent : Bool) :
    machine_reset s = { s with key_irq_enable := false }
    ∧ (machine_reset (machine_start (initState ramSize cartPresent))).key_irq_enable = false
    ∧ (machine_reset (machine_start (initState ramSize cartPresent))).key_strobe = false
    ∧ (machine_reset (machine_start (initState ramSize cartPresent))).key_latch = 0
    ∧ (machine_reset (machine_start (initState ramSize cartPresent))).rtc_cs = true
    ∧ (machine_reset (machine_start (initState ramSize cartPresent))).mmr
        = (initState ramSize cartPresent).mmr
    ∧ (machine_reset (machine_start (initState ramSize cartPresent))).resolve_count = 1
    ∧ (machine_reset (machine_start (initState ramSize cartPresent))).low_h
        = WinHandler.readBank
    ∧ (machine_reset (machine_start (initState ramSize cartPresent))).bank1_entry = 0
    ∧ (machine_reset (machine_start (initState ramSize cartPresent))).mid_h
        = WinHandler.rwBank
    ∧ (machine_reset (machine_start (initState ramSize cartPresent))).bank3_entry = 0
    ∧ (machine_reset (machine_start (initState ramSize cartPresent))).bank4_entry = 0
    ∧ (machine_reset (machine_start (initState ramSize cartPresent))).e000_unmapped
        = false :=
  ⟨rfl, rfl, rfl, rfl, rfl, rfl, rfl, rfl, rfl, rfl, rfl, rfl, rfl⟩

/-! ### C5 and C10: keyboard scan behaviour -/

theorem scan_asserts (rows : Nat → Nat) (t : SysState)
    (hen : t.key_irq_enable = true) (hst : t.key_strobe = false)
    (i : Nat) (hi : i < 10) (hne : rows i ≠ 0xff) :
    scan_keyboard rows t
      = { t with
          key_latch := ((List.range 10).foldl (scanStep rows) (false, t.key_latch)).2,
          irq_line := true, irq_asserts := t.irq_asserts + 1,
          irq_vector := 0xef, key_strobe := true } := by
  have hp : ((List.range 10).foldl (scanStep rows) (false, t.key_latch)).1 = true :=
    scanFold_fst rows _ 10 i hi hne
  simp [scan_keyboard, hen, hst, hp]

theorem scan_idle_noop (rows : Nat → Nat) (t : SysState)
    (h : ∀ j, j < 10 → rows j = 0xff) :
    scan_keyboard rows t = t := by
  obtain ⟨f1, f2, f3, f4, f5, f6, f7, f8, f9, ks, kl, ke, il, ia, iv, rc, io, rv, dc⟩ := t
  cases ke with
  | false => rfl
  | true =>
    simp [scan_keyboard, scanFold_idle rows (false, kl) 10 h]

theorem scan_strobed_no_assert (rows : Nat → Nat) (t : SysState)
    (hst : t.key_strobe = true) :
    (scan_keyboard rows t).irq_asserts = t.irq_asserts := by
  cases hen : t.key_irq_enable with
  | false =>
    unfold scan_keyboard
    rw [hen]
    rfl
  | true =>
    unfold scan_keyboard
    rw [hen]
    cases hp1 : ((List.range 10).foldl (scanStep rows) (false, t.key_latch)).1 <;>
      simp [hst, hp1]

/-- C5: from any state with the strobe clear, the enable sequence (write
0x10 then 0x18 to port 0x71) sets `m_key_irq_enable`; ticks in which all
rows read idle leave the state unchanged; the first tick in which some
row reads a non-0xff value asserts the CPU interrupt line exactly once —
on the strobe clear-to-set transition, with vector 0xEF — after which a
read of port 0x70 returns 0x11 (bit 0 set); a further tick with the
strobe still set does not assert the line again. -/
theorem C5_keyboard_enable_irq (s : SysState) (hstrobe : s.key_strobe = false)
    (rows rows2 : Nat → Nat) (i : Nat) (hi : i < 10) (hrow : rows i ≠ 0xff) :
    (port71_w 0x18 (port71_w 0x10 s)).key_irq_enable = true
    ∧ (∀ r0 : Nat → Nat, (∀ j, j < 10 → r0 j = 0xff) →
        scan_keyboard r0 (port71_w 0x18 (port71_w 0x10 s))
          = port71_w 0x18 (port71_w 0x10 s))
    ∧ (scan_keyboard rows (port71_w 0x18 (port71_w 0x10 s))).irq_asserts
        = (port71_w 0x18 (port71_w 0x10 s)).irq_asserts + 1
    ∧ (scan_keyboard rows (port71_w 0x18 (port71_w 0x10 s))).irq_line = true
    ∧ (scan_keyboard rows (port71_w 0x18 (port71_w 0x10 s))).irq_vector = 0xef
    ∧ (scan_keyboard rows (port71_w 0x18 (port71_w 0x10 s))).key_strobe = true
    ∧ port70_r (scan_keyboard rows (port71_w 0x18 (port71_w 0x10 s))) = 0x11
    ∧ (scan_keyboard rows2 (scan_keyboard rows (port71_w 0x18 (port71_w 0x10 s)))).irq_asserts
        = (scan_keyboard rows (port71_w 0x18 (port71_w 0x10 s))).irq_asserts := by
  have e1 : port71_w 0x18 (port71_w 0x10 s)
      = { s with irq_line := false, key_irq_enable := true, key_latch := 0x18 } := by
    simp [port71_w]
  rw [e1]
  have hscan := scan_asserts rows
    { s with irq_line := false, key_irq_enable := true, key_latch := 0x18 }
    rfl hstrobe i hi hrow
  rw [hscan]
  refine ⟨rfl, ?_, rfl, rfl, rfl, rfl, ?_, ?_⟩
  · intro r0 h0
    exact scan_idle_noop r0 _ h0
  · simp [port70_r]
  · exact scan_strobed_no_assert rows2 _ rfl

/-- Witness for C5 at the cold-boot state, with row 3 pressed in the
first non-idle tick. -/
theorem C5_keyboard_enable_irq_witness :
    (port71_w 0x18 (port71_w 0x10 boot64)).key_irq_enable = true
    ∧ (∀ r0 : Nat → Nat, (∀ j, j < 10 → r0 j = 0xff) →
        scan_keyboard r0 (port71_w 0x18 (port71_w 0x10 boot64))
          = port71_w 0x18 (port71_w 0x10 boot64))
    ∧ (scan_keyboard (fun j => if j = 3 then 0xfe else 0xff)
          (port71_w 0x18 (port71_w 0x10 boot64))).irq_asserts
        = (port71_w 0x18 (port71_w 0x10 boot64)).irq_asserts + 1
    ∧ (scan_keyboard (fun j => if j = 3 then 0xfe else 0xff)
          (port71_w 0x18 (port71_w 0x10 boot64))).irq_line = true
    ∧ (scan_keyboard (fun j => if j = 3 then 0xfe else 0xff)
          (port71_w 0x18 (port71_w 0x10 boot64))).irq_vector = 0xef
    ∧ (scan_keyboard (fun j => if j = 3 then 0xfe else 0xff)
          (port71_w 0x18 (port71_w 0x10 boot64))).key_strobe = true
    ∧ port70_r (scan_keyboard (fun j => if j = 3 then 0xfe else 0xff)
          (port71_w 0x18 (port71_w 0x10 boot64))) = 0x11
    ∧ (scan_keyboard (fun _ => 0xfe)
          (scan_keyboard (fun j => if j = 3 then 0xfe else 0xff)
            (port71_w 0x18 (port71_w 0x10 boot64)))).irq_asserts
        = (scan_keyboard (fun j => if j = 3 then 0xfe else 0xff)
            (port71_w 0x18 (port71_w 0x10 boot64))).irq_asserts :=
  C5_keyboard_enable_irq boot64 (by decide)
    (fun j => if j = 3 then 0xfe else 0xff) (fun _ => 0xfe) 3
    (by decide) (by decide)

/-- C10: during one enabled scan, rows are visited in order 0..9 and each
non-idle row overwrites the latch, so afterwards the latch equals the raw
byte of the highest-numbered row that read a non-0xff value. -/
theorem C10_scan_highest_row (s : SysState) (rows : Nat → Nat) (i : Nat)
    (hen : s.key_irq_enable = true) (hi : i < 10) (hne : rows i ≠ 0xff)
    (hidle : ∀ j, i < j → j < 10 → rows j = 0xff) :
    (scan_keyboard rows s).key_latch = rows i := by
  have h2 := scanFold_snd rows (false, s.key_latch) 10 i hi hne hidle
  unfold scan_keyboard
  rw [hen]
  cases hks : s.key_strobe <;>
    cases hp1 : ((List.range 10).foldl (scanStep rows) (false, s.key_latch)).1 <;>
      simp [hks, hp1, h2]

/-- Witness for C10: rows 2 and 5 both non-idle; the latch ends up with
row 5's byte. -/
theorem C10_scan_highest_row_witness :
    (scan_keyboard
        (fun j => if j = 2 then 0x7f else if j = 5 then 0xfe else 0xff)
        { boot64 with key_irq_enable := true }).key_latch
      = (fun j : Nat => if j = 2 then 0x7f else if j = 5 then 0xfe else 0xff) 5 :=
  C10_scan_highest_row { boot64 with key_irq_enable := true }
    (fun j => if j = 2 then 0x7f else if j = 5 then 0xfe else 0xff) 5
    rfl (by decide) (by decide)
    (by
      intro j h1 h2
      interval_cases j <;> rfl)

/-! ### C7: I/O ROM address counter -/

theorem lt_two_pow_18 {a : Nat} (h : a < 0x40000) : a < 2 ^ 18 := by
  norm_num
  exact h

theorem lt_two_pow_8 {d : Nat} (h : d < 256) : d < 2 ^ 8 := by
  norm_num
  exact h

theorem mask300ff_testBit (k : Nat) :
    (0x300ff : Nat).testBit k = decide (k < 8 ∨ k = 16 ∨ k = 17) := by
  by_cases h : k < 20
  · interval_cases k <;> decide
  · rw [testBit_false_ge 20 (by norm_num) (by omega)]
    symm
    simp only [decide_eq_false_iff_not]
    omega

theorem mask3ff00_testBit (k : Nat) :
    (0x3ff00 : Nat).testBit k = decide (8 ≤ k ∧ k < 18) := by
  by_cases h : k < 20
  · interval_cases k <;> decide
  · rw [testBit_false_ge 20 (by norm_num) (by omega)]
    symm
    simp only [decide_eq_false_iff_not]
    omega

theorem iow0_bits (a d : Nat) (ha : a < 0x40000) (k : Nat) :
    (((d &&& 0x03) <<< 16) ||| (a &&& 0xffff)).testBit k
      = if 16 ≤ k ∧ k < 18 then d.testBit (k - 16) else a.testBit k := by
  have e3 : (0x03 : Nat) = 2 ^ 2 - 1 := by norm_num
  have ef : (0xffff : Nat) = 2 ^ 16 - 1 := by norm_num
  rw [Nat.testBit_or, Nat.testBit_shiftLeft, e3, ef, Nat.testBit_and,
      Nat.testBit_and, Nat.testBit_two_pow_sub_one, Nat.testBit_two_pow_sub_one]
  by_cases h1 : k < 16
  · simp [Nat.not_le.mpr h1, h1, show ¬ (16 ≤ k ∧ k < 18) by omega]
  · by_cases h2 : k < 18
    · simp [show 16 ≤ k ∧ k < 18 from ⟨by omega, h2⟩, Nat.le_of_not_lt h1,
        show k - 16 < 2 by omega, h1]
    · have hb : a.testBit k = false := testBit_false_ge 18 (lt_two_pow_18 ha) (by omega)
      simp [show ¬ (16 ≤ k ∧ k < 18) by omega, show ¬ (k - 16 < 2) by omega, h1, hb]

theorem iow1_bits (a d : Nat) (ha : a < 0x40000) (hd : d < 256) (k : Nat) :
    ((a &&& 0x300ff) ||| (d <<< 8)).testBit k
      = if 8 ≤ k ∧ k < 16 then d.testBit (k - 8) else a.testBit k := by
  rw [Nat.testBit_or, Nat.testBit_and, Nat.testBit_shiftLeft, mask300ff_testBit]
  by_cases h1 : k < 8
  · simp [h1, show ¬ 8 ≤ k by omega, show ¬ (8 ≤ k ∧ k < 16) by omega]
  · by_cases h2 : k < 16
    · simp [show 8 ≤ k ∧ k < 16 from ⟨by omega, h2⟩,
        show ¬ (k < 8 ∨ k = 16 ∨ k = 17) by omega, Nat.le_of_not_lt h1]
    · by_cases h3 : k < 18
      · have hd' : d.testBit (k - 8) = false :=
          testBit_false_ge 8 (lt_two_pow_8 hd) (by omega)
        simp [show k < 8 ∨ k = 16 ∨ k = 17 by omega,
          show ¬ (8 ≤ k ∧ k < 16) by omega, hd']
      · have ha' : a.testBit k = false := testBit_false_ge 18 (lt_two_pow_18 ha) (by omega)
        have hd' : d.testBit (k - 8) = false :=
          testBit_false_ge 8 (lt_two_pow_8 hd) (by omega)
        simp [show ¬ (k < 8 ∨ k = 16 ∨ k = 17) by omega,
          show ¬ (8 ≤ k ∧ k < 16) by omega, ha', hd']

theorem iow2_bits (a d : Nat) (ha : a < 0x40000) (hd : d < 256) (k : Nat) :
    ((a &&& 0x3ff00) ||| d).testBit k
      = if k < 8 then d.testBit k else a.testBit k := by
  rw [Nat.testBit_or, Nat.testBit_and, mask3ff00_testBit]
  by_cases h1 : k < 8
  · simp [h1, show ¬ (8 ≤ k ∧ k < 18) by omega]
  · by_cases h3 : k < 18
    · have hd' : d.testBit k = false := testBit_false_ge 8 (lt_two_pow_8 hd) (by omega)
      simp [h1, show 8 ≤ k ∧ k < 18 from ⟨by omega, h3⟩, hd']
    · have ha' : a.testBit k = false := testBit_false_ge 18 (lt_two_pow_18 ha) (by omega)
      have hd' : d.testBit k = false := testBit_false_ge 8 (lt_two_pow_8 hd) (by omega)
      simp [h1, show ¬ (8 ≤ k ∧ k < 18) by omega, ha', hd']

theorem iow0_lt (a d : Nat) : ((d &&& 0x03) <<< 16) ||| (a &&& 0xffff) < 0x40000 := by
  have h1 : d &&& 0x03 < 4 := by
    have := Nat.and_lt_two_pow d (show (0x03 : Nat) < 2 ^ 2 by norm_num)
    simpa using this
  have h1' : (d &&& 0x03) <<< 16 < 2 ^ 18 := by
    rw [Nat.shiftLeft_eq]
    norm_num
    omega
  have h2 : a &&& 0xffff < 2 ^ 18 := by
    have := Nat.and_lt_two_pow a (show (0xffff : Nat) < 2 ^ 16 by norm_num)
    calc a &&& 0xffff < 2 ^ 16 := this
      _ ≤ 2 ^ 18 := by norm_num
  have h3 := Nat.or_lt_two_pow h1' h2
  norm_num at h3
  exact h3

theorem iow1_lt (a d : Nat) (hd : d < 256) :
    (a &&& 0x300ff) ||| (d <<< 8) < 0x40000 := by
  have h1 : a &&& 0x300ff < 2 ^ 18 := by
    have := Nat.and_lt_two_pow a (show (0x300ff : Nat) < 2 ^ 18 by norm_num)
    exact this
  have h2 : d <<< 8 < 2 ^ 18 := by
    rw [Nat.shiftLeft_eq]
    norm_num
    omega
  have h3 := Nat.or_lt_two_pow h1 h2
  norm_num at h3
  exact h3

/-- C7: starting from any 18-bit I/O ROM address state, writing 0x01 at
fragment offset 0, 0x23 at offset 1 and 0x45 at offset 2 yields effective
address 0x12345, and `io_rom_data_r` returns the cartridge byte at that
address; each fragment write changes only its own bit-field (offset 0
bits 17-16 masked to 2 bits, offset 1 bits 15-8, offset 2 bits 7-0) and
an offset-3 write is a no-op. -/
theorem C7_io_rom_addresser (s : SysState) (h : s.io_addr < 0x40000)
    (d : Nat) (hd : d < 256) (img : Nat → Nat) :
    (io_rom_addr_w 2 0x45 (io_rom_addr_w 1 0x23 (io_rom_addr_w 0 0x01 s))).io_addr
        = 0x12345
    ∧ io_rom_data_r img
        (io_rom_addr_w 2 0x45 (io_rom_addr_w 1 0x23 (io_rom_addr_w 0 0x01 s)))
        = img 0x12345
    ∧ (∀ k, ((io_rom_addr_w 0 d s).io_addr).testBit k
          = if 16 ≤ k ∧ k < 18 then d.testBit (k - 16) else s.io_addr.testBit k)
    ∧ (∀ k, ((io_rom_addr_w 1 d s).io_addr).testBit k
          = if 8 ≤ k ∧ k < 16 then d.testBit (k - 8) else s.io_addr.testBit k)
    ∧ (∀ k, ((io_rom_addr_w 2 d s).io_addr).testBit k
          = if k < 8 then d.testBit k else s.io_addr.testBit k)
    ∧ io_rom_addr_w 3 d s = s := by
  have ha1 : ((0x01 &&& 0x03) <<< 16) ||| (s.io_addr &&& 0xffff) < 0x40000 :=
    iow0_lt s.io_addr 0x01
  have ha2 : (((((0x01 &&& 0x03) <<< 16) ||| (s.io_addr &&& 0xffff)) &&& 0x300ff)
      ||| (0x23 <<< 8)) < 0x40000 :=
    iow1_lt _ 0x23 (by norm_num)
  have chain :
      ((((((0x01 &&& 0x03) <<< 16) ||| (s.io_addr &&& 0xffff)) &&& 0x300ff)
          ||| (0x23 <<< 8)) &&& 0x3ff00) ||| 0x45 = 0x12345 := by
    apply Nat.eq_of_testBit_eq
    intro k
    rw [iow2_bits _ 0x45 ha2 (by norm_num) k, iow1_bits _ 0x23 ha1 (by norm_num) k,
        iow0_bits s.io_addr 0x01 h k]
    by_cases h18 : k < 18
    · interval_cases k <;> simp [Nat.testBit_to_div_mod]
    · have hb0 : s.io_addr.testBit k = false :=
        testBit_false_ge 18 (lt_two_pow_18 h) (by omega)
      have hbr : (0x12345 : Nat).testBit k = false :=
        testBit_false_ge 18 (by norm_num) (by omega)
      simp [show ¬ k < 8 by omega, show ¬ (8 ≤ k ∧ k < 16) by omega,
        show ¬ (16 ≤ k ∧ k < 18) by omega, hb0, hbr]
  refine ⟨chain, congrArg img chain, ?_, ?_, ?_, rfl⟩
  · intro k
    exact iow0_bits s.io_addr d h k
  · intro k
    exact iow1_bits s.io_addr d h hd k
  · intro k
    exact iow2_bits s.io_addr d h hd k

/-- Witness for C7 at the cold-boot state with fragment byte 0xAB. -/
theorem C7_io_rom_addresser_witness :
    (io_rom_addr_w 2 0x45 (io_rom_addr_w 1 0x23 (io_rom_addr_w 0 0x01 boot64))).io_addr
        = 0x12345
    ∧ io_rom_data_r (fun n => n % 251)
        (io_rom_addr_w 2 0x45 (io_rom_addr_w 1 0x23 (io_rom_addr_w 0 0x01 boot64)))
        = (fun n : Nat => n % 251) 0x12345
    ∧ (∀ k, ((io_rom_addr_w 0 0xab boot64).io_addr).testBit k
          = if 16 ≤ k ∧ k < 18 then (0xab : Nat).testBit (k - 16)
            else boot64.io_addr.testBit k)
    ∧ (∀ k, ((io_rom_addr_w 1 0xab boot64).io_addr).testBit k
          = if 8 ≤ k ∧ k < 16 then (0xab : Nat).testBit (k - 8)
            else boot64.io_addr.testBit k)
    ∧ (∀ k, ((io_rom_addr_w 2 0xab boot64).io_addr).testBit k
          = if k < 8 then (0xab : Nat).testBit k else boot64.io_addr.testBit k)
    ∧ io_rom_addr_w 3 0xab boot64 = boot64 :=
  C7_io_rom_addresser boot64 (by decide) 0xab (by decide) (fun n => n % 251)

end PC8401A
